import Mathlib

/-!
Verification of the VitalsTrack unified sensor firmware (the unified
mode-switching sketch in the repository, file "main copy.cpp") against its
design specification. The firmware is shallowly embedded: the global
mutable variables become an explicit SystemState record, every command
handler and the periodic report tick become pure state transformers, and
machine integers are modelled as Nat/Int with explicit reductions modulo
2^16 / 2^32 where the C types can wrap. Sensor "float" values are
modelled as rationals; the float square root is modelled by an exact
rational square root (exact on the perfect squares at which the theorems
evaluate it, and otherwise used opaquely). Outcomes of hardware priming
attempts are supplied by a Boolean oracle, one Boolean per attempt.
-/

/-- Operating modes, from the OperatingMode enum of the firmware. -/
inductive OperatingMode where
  | MODE_IDLE
  | MODE_HR_SPO2
  | MODE_TEMPERATURE
  | MODE_FORCE_TEST
  | MODE_DISTANCE_TEST
  | MODE_QUALITY
  | MODE_RAW_DATA
deriving DecidableEq

open OperatingMode

/-- One iteration worth of environment input: what the sensor drivers would
deliver if read. hr/spo2 model pox.getHeartRate()/getSpO2(); ir/red model
rawSensor.getRawValues() (uint16 values); fsr models analogRead (12 bit);
ax/ay/az model accel.getAcceleration; tempReady/temp model
isTemperatureReady()/retrieveTemperature(). -/
structure Reading where
  ax : ℚ
  ay : ℚ
  az : ℚ
  hr : ℚ
  spo2 : ℚ
  ir : Nat
  red : Nat
  fsr : Nat
  tempReady : Bool
  temp : ℚ
deriving DecidableEq

/-- The forceTest struct of the firmware. -/
structure ForceTestS where
  currentLabel : String
  isCollecting : Bool
  collectionStartTime : Nat
  collectionDuration : Nat
deriving DecidableEq

/-- The distanceTest struct of the firmware. irSum/redSum are uint32,
sampleCount and samplesPerBatch are uint16. -/
structure DistanceTestS where
  currentLED : String
  currentDistance : Int
  collectingData : Bool
  irSum : Nat
  redSum : Nat
  sampleCount : Nat
  samplesPerBatch : Nat
deriving DecidableEq

/-- The temperatureMode struct of the firmware. -/
structure TemperatureS where
  tempSamplingStarted : Bool
  tsLastTempSample : Nat
  tempSamplingPeriod : Nat
deriving DecidableEq

/-- The qualityMode struct of the firmware. -/
structure QualityS where
  previousHeartRate : ℚ
  previousSpO2 : ℚ
  previousAccelMag : ℚ
  hasPreviousData : Bool
  totalSamples : Nat
  goodQualitySamples : Nat
deriving DecidableEq

/-- The whole global mutable state of the firmware. busResets is a ghost
counter incremented on every resetSensors() call, used to observe bus
reset side effects; it corresponds to no C variable. -/
structure SystemState where
  currentMode : OperatingMode
  tsLastReport : Nat
  reportingPeriod : Nat
  clientConnected : Bool
  poxInitialized : Bool
  rawSensorInitialized : Bool
  heartRate : ℚ
  spO2 : ℚ
  ax : ℚ
  ay : ℚ
  az : ℚ
  temperature : ℚ
  irValue : Nat
  redValue : Nat
  fsrValue : Nat
  forceTest : ForceTestS
  distanceTest : DistanceTestS
  temperatureMode : TemperatureS
  qualityMode : QualityS
  busResets : Nat
deriving DecidableEq

/-- The structured content that sendData() formats into its JSON buffer,
one constructor per snprintf schema. A tick that formats no fresh payload
is modelled as none. -/
inductive Payload where
  | hrSpo2 (hr spo2 ax ay az : ℚ) (timestamp : Nat)
  | temperaturePl (t : ℚ) (timestamp : Nat)
  | forceTestPl (ir red fsr : Nat) (label : String) (collecting : Bool) (timestamp : Nat)
  | distAverage (led : String) (distance : Int) (avgIR avgRed : ℚ) (samples : Nat) (timestamp : Nat)
  | distRaw (ir red : Nat) (led : String) (distance : Int) (collecting : Bool) (timestamp : Nat)
  | qualityPl (hr spo2 ax ay az : ℚ) (quality : Int) (qualityPercent : ℚ) (accelMag : ℚ) (timestamp : Nat)
  | rawDataPl (hr spo2 : ℚ) (ir red : Nat) (ax ay az : ℚ) (timestamp : Nat)
  | idlePl (timestamp : Nat)
deriving DecidableEq

/-! C string primitives, modelled over the character list of a String
(the byte-position based library functions do not reduce in the kernel).
-/

/-- strncmp(s, p, strlen(p)) == 0, i.e. p is a prefix of s. -/
def strHasPref (s p : String) : Bool :=
  List.isPrefixOf p.data s.data

/-- Dropping the first n characters of a command (pointer arithmetic such
as command + 5 in the source). -/
def strDropN (s : String) (n : Nat) : String :=
  ⟨s.data.drop n⟩

/-- strncpy into a buffer of n+1 bytes followed by forced NUL termination:
keeps at most n characters. -/
def strTakeN (s : String) (n : Nat) : String :=
  ⟨s.data.take n⟩

/-- strchr: split a character list at the first colon, returning the part
before it and, when a colon exists, the part after it. -/
def splitAtColon : List Char → List Char × Option (List Char)
  | [] => ([], none)
  | c :: cs =>
    if c = ':' then ([], some cs)
    else
      let r := splitAtColon cs
      (c :: r.1, r.2)

/-- Decimal digit accumulator for atoi. -/
def digitsToNat : List Char → Nat → Nat
  | [], acc => acc
  | c :: cs, acc => if c.isDigit then digitsToNat cs (acc * 10 + (c.toNat - 48)) else acc

/-- atoi on the distance argument: optional leading minus sign then
leading decimal digits; anything else contributes 0. (The C atoi also
skips leading whitespace, which the firmware commands never contain.) -/
def atoiC (l : List Char) : Int :=
  match l with
  | '-' :: cs => -(digitsToNat cs 0 : Int)
  | cs => (digitsToNat cs 0 : Int)

/-- uint32 subtraction a - b as used for millis() differences, assuming
both arguments are uint32 values (below 2^32). -/
def u32sub (a b : Nat) : Nat :=
  (a % 2 ^ 32 + 2 ^ 32 - b % 2 ^ 32) % 2 ^ 32

/-! Sensor lifecycle: resetSensors and the two initializers. The outcome
of each primeSensor() call is environmental (it depends on the physical
sensor); it is supplied by an oracle oc : Nat -> Bool giving the result
of the i-th priming attempt. The advisory checkMemory() outcome is the
Boolean memOk. -/

/-- resetSensors(): shuts down and uninitializes both optical sensor
variants and resets the I2C bus. The bus operations themselves are
outside the state; the ghost counter records that one full bus reset
happened. -/
def resetSensors (s : SystemState) : SystemState :=
  { s with poxInitialized := false, rawSensorInitialized := false, busResets := s.busResets + 1 }

/-- The retry loop of initializePulseOximeter: up to fuel further priming
attempts, attempt i succeeding iff oc i; a failed attempt is followed by
resetSensors() before the next try; exhausting all retries stores
poxInitialized = false and returns failure. -/
def poxRetry (oc : Nat → Bool) : Nat → Nat → SystemState → SystemState × Bool
  | 0, _, s => ({ s with poxInitialized := false }, false)
  | fuel + 1, i, s =>
    if oc i then ({ s with poxInitialized := true }, true)
    else poxRetry oc fuel (i + 1) (resetSensors s)

/-- initializePulseOximeter(): advisory memory check (early failure
return), full bus reset, then up to maxRetries = 3 priming attempts with
a bus reset after each failure. -/
def initializePulseOximeter (memOk : Bool) (oc : Nat → Bool) (s : SystemState) : SystemState × Bool :=
  if memOk then poxRetry oc 3 0 (resetSensors s)
  else (s, false)

/-- initializeRawSensor(): advisory memory check, full bus reset, then a
single priming attempt; failure immediately stores
rawSensorInitialized = false and returns failure (no retry loop). -/
def initializeRawSensor (memOk : Bool) (oc : Nat → Bool) (s : SystemState) : SystemState × Bool :=
  if memOk then
    let s1 := resetSensors s
    if oc 0 then ({ s1 with rawSensorInitialized := true }, true)
    else ({ s1 with rawSensorInitialized := false }, false)
  else (s, false)

/-- The mode-name resolution table of switchMode: name to (mode,
reporting period); unknown names fall back to MODE_IDLE. Every entry of
the unified firmware uses the same 500 ms period. -/
def resolveMode (name : String) : OperatingMode × Nat :=
  if name = "HR_SPO2" then (MODE_HR_SPO2, 500)
  else if name = "TEMPERATURE" then (MODE_TEMPERATURE, 500)
  else if name = "FORCE_TEST" then (MODE_FORCE_TEST, 500)
  else if name = "DISTANCE_TEST" then (MODE_DISTANCE_TEST, 500)
  else if name = "QUALITY" then (MODE_QUALITY, 500)
  else if name = "RAW_DATA" then (MODE_RAW_DATA, 500)
  else (MODE_IDLE, 500)

/-- The sensor (re)initialization block of switchMode: Idle resets the
bus; modes needing the pulse oximeter first reset the bus when the raw
variant is live, then prime the pulse oximeter; modes needing the raw
variant do the symmetric thing. (initializeAccelerometer touches no
modelled state.) -/
def switchSensors (nm : OperatingMode) (memOk : Bool) (oc : Nat → Bool) (s : SystemState) : SystemState :=
  if nm = MODE_IDLE then resetSensors s
  else if nm = MODE_HR_SPO2 ∨ nm = MODE_QUALITY then
    (initializePulseOximeter memOk oc (if s.rawSensorInitialized then resetSensors s else s)).1
  else if nm = MODE_TEMPERATURE ∨ nm = MODE_FORCE_TEST ∨ nm = MODE_DISTANCE_TEST ∨ nm = MODE_RAW_DATA then
    (initializeRawSensor memOk oc (if s.poxInitialized then resetSensors s else s)).1
  else s

/-- The per-new-mode transient state reset block at the end of
switchMode, keyed on the mode being entered. -/
def modeEntryReset (nm : OperatingMode) (s : SystemState) : SystemState :=
  if nm = MODE_FORCE_TEST then
    { s with forceTest := { s.forceTest with isCollecting := false, currentLabel := "waiting" } }
  else if nm = MODE_DISTANCE_TEST then
    { s with distanceTest := { s.distanceTest with collectingData := false, currentLED := "none", currentDistance := 0 } }
  else if nm = MODE_TEMPERATURE then
    { s with temperatureMode := { s.temperatureMode with tempSamplingStarted := false, tsLastTempSample := 0 } }
  else if nm = MODE_QUALITY then
    { s with qualityMode := { s.qualityMode with hasPreviousData := false, totalSamples := 0, goodQualitySamples := 0 } }
  else s

/-- switchMode(modeName): resolve the name, return unchanged if the
resolved mode is already active, otherwise commit mode and reporting
period, reset the report timer, run the sensor switch block, and reset
the transient state of the mode being entered. -/
def switchMode (name : String) (memOk : Bool) (oc : Nat → Bool) (s : SystemState) : SystemState :=
  let nm := (resolveMode name).1
  if nm = s.currentMode then s
  else
    let s1 := { s with currentMode := nm, reportingPeriod := (resolveMode name).2, tsLastReport := 0 }
    modeEntryReset nm (switchSensors nm memOk oc s1)

/-- The START: branch of handleControlCommand in MODE_DISTANCE_TEST:
parse LED[:distance], store them (currentLED is an 8-byte buffer; for the
in-range arguments considered here at most 7 characters are kept), then
begin a session with zeroed accumulators. -/
def startDistance (arg : String) (s : SystemState) : SystemState :=
  let p := splitAtColon arg.data
  let dt :=
    match p.2 with
    | none => { s.distanceTest with currentLED := (⟨p.1.take 7⟩ : String), currentDistance := 0 }
    | some rest => { s.distanceTest with currentLED := (⟨p.1.take 7⟩ : String), currentDistance := atoiC rest }
  { s with distanceTest := { dt with collectingData := true, sampleCount := 0, irSum := 0, redSum := 0 } }

/-- handleControlCommand(command): the BLE control dispatcher. now is the
millis() value at which the command arrives (used by LABEL:). The
trailing sendStatus() emits a status payload without modifying state and
is not modelled. STATUS and unrecognized commands leave the state
unchanged. -/
def handleControlCommand (command : String) (now : Nat) (memOk : Bool) (oc : Nat → Bool) (s : SystemState) : SystemState :=
  if strHasPref command "MODE:" then switchMode (strDropN command 5) memOk oc s
  else if strHasPref command "LABEL:" then
    if s.currentMode = MODE_FORCE_TEST then
      { s with forceTest := { s.forceTest with
          currentLabel := strTakeN (strDropN command 6) 15,
          isCollecting := true,
          collectionStartTime := now } }
    else s
  else if strHasPref command "START:" then
    if s.currentMode = MODE_DISTANCE_TEST then startDistance (strDropN command 6) s
    else s
  else if command = "STOP" then
    if s.currentMode = MODE_FORCE_TEST then
      { s with forceTest := { s.forceTest with isCollecting := false, currentLabel := "waiting" } }
    else if s.currentMode = MODE_DISTANCE_TEST then
      { s with distanceTest := { s.distanceTest with collectingData := false } }
    else s
  else if command = "RESET" then resetSensors s
  else s

/-- The accelerometer read of readSensorData (always performed). -/
def readAccel (r : Reading) (s : SystemState) : SystemState :=
  { s with ax := r.ax, ay := r.ay, az := r.az }

/-- The pulse oximeter read of readSensorData: heart rate and SpO2 are
refreshed only when the pulse oximeter is live and the mode uses it. -/
def readPox (r : Reading) (s : SystemState) : SystemState :=
  if s.poxInitialized ∧ (s.currentMode = MODE_HR_SPO2 ∨ s.currentMode = MODE_QUALITY) then
    { s with heartRate := r.hr, spO2 := r.spo2 }
  else s

/-- The temperature sub-state machine of readSensorData (only reached in
MODE_TEMPERATURE with the raw sensor live): start a conversion when the
sampling period elapsed and none is in flight; retrieve the result when
the device reports it ready. -/
def readTemperatureUpd (r : Reading) (now : Nat) (s : SystemState) : SystemState :=
  let s1 :=
    if u32sub now s.temperatureMode.tsLastTempSample > s.temperatureMode.tempSamplingPeriod then
      if s.temperatureMode.tempSamplingStarted = false then
        { s with temperatureMode := { s.temperatureMode with tempSamplingStarted := true, tsLastTempSample := now } }
      else s
    else s
  if s1.temperatureMode.tempSamplingStarted ∧ r.tempReady then
    { s1 with temperature := r.temp,
              temperatureMode := { s1.temperatureMode with tempSamplingStarted := false } }
  else s1

/-- The raw sensor read of readSensorData: when the raw variant is live,
refresh the optical channels and, in MODE_TEMPERATURE, run the
temperature sub-state machine. -/
def readRaw (r : Reading) (now : Nat) (s : SystemState) : SystemState :=
  if s.rawSensorInitialized then
    let s1 := { s with irValue := r.ir, redValue := r.red }
    if s1.currentMode = MODE_TEMPERATURE then readTemperatureUpd r now s1 else s1
  else s

/-- The FSR read of readSensorData (only in MODE_FORCE_TEST). -/
def readFsr (r : Reading) (s : SystemState) : SystemState :=
  if s.currentMode = MODE_FORCE_TEST then { s with fsrValue := r.fsr } else s

/-- readSensorData(): refresh the cached sensor values from the drivers,
in source order: accelerometer, pulse oximeter, raw optical channels and
temperature, FSR. -/
def readSensorData (r : Reading) (now : Nat) (s : SystemState) : SystemState :=
  readFsr r (readRaw r now (readPox r (readAccel r s)))

/-! The quality classifier (sensor_quality_model.h), an integer-quantized
affine model. All C arithmetic is on int32_t; i32 reduces a value into
the wrapped int32 range. The float-to-int cast truncates toward zero. -/

/-- Wrap an integer into the int32 range (two-complement). -/
def i32 (x : Int) : Int :=
  (x + 2 ^ 31) % 2 ^ 32 - 2 ^ 31

/-- Truncation toward zero of a rational, the (int32_t) cast of a float
(composed with i32 at use sites for the wrapping of out-of-range casts). -/
def ratTrunc (q : ℚ) : Int :=
  q.num.tdiv q.den

/-- Model of the C float sqrtf: exact on rationals whose numerator and
denominator are perfect squares (the only points at which the theorems
below evaluate it); elsewhere it is some fixed rational the proofs never
inspect. -/
def fSqrt (q : ℚ) : ℚ :=
  (Int.sqrt q.num : ℚ) / (Nat.sqrt q.den : ℚ)

/-- model_coefficients (scaled by 1000). -/
def model_coefficients : Fin 6 → Int := ![2759, 3931, 169, -1874, -2038, -4785]

/-- model_intercept. -/
def model_intercept : Int := 2335

/-- scaler_mean. -/
def scaler_mean : Fin 6 → Int := ![-1251, 27550, 992, 2451, 863, 51]

/-- scaler_scale. -/
def scaler_scale : Fin 6 → Int := ![11711, 17091, 111, 5410, 8871, 127]

/-- The float-to-fixed-point interface of predict_quality: the
(int32_t)(features[i] * SCALE_FACTOR) cast. -/
def qFeature (q : ℚ) : Int :=
  i32 (ratTrunc (q * 1000))

/-- One iteration of the score loop of predict_quality on the already
quantized feature x: standardize ((x - mean) * 1000) / scale, multiply
by the coefficient and divide by 1000, add to the accumulator, all in
int32 arithmetic with C division (truncation toward zero). -/
def scoreStep (acc x : Int) (i : Fin 6) : Int :=
  let scaled := (i32 (i32 (x - scaler_mean i) * 1000)).tdiv (scaler_scale i)
  i32 (acc + (i32 (scaled * model_coefficients i)).tdiv 1000)

/-- The integer part of predict_quality: intercept plus the six feature
terms, thresholded at zero (1 = good, 0 = poor). -/
def predictFromQuantized (g : Fin 6 → Int) : Int :=
  let score := (List.finRange 6).foldl (fun acc i => scoreStep acc (g i) i) model_intercept
  if score > 0 then 1 else 0

/-- predict_quality: quantize each feature, then run the integer score
loop. -/
def predict_quality (f : Fin 6 → ℚ) : Int :=
  predictFromQuantized (fun i => qFeature (f i))

/-- assess_sensor_quality(hr, spo2, ax, ay, az, hr_prev, spo2_prev,
accel_prev): build the six features, the last three being absolute
differences of the current values against the three trailing arguments,
then evaluate the model. -/
def assess_sensor_quality (hr spo2 ax ay az hr_prev spo2_prev accel_prev : ℚ) : Int :=
  let accel_mag := fSqrt (ax * ax + ay * ay + az * az)
  predict_quality ![hr, spo2, accel_mag, |hr - hr_prev|, |spo2 - spo2_prev|, |accel_mag - accel_prev|]

/-- assessDataQuality(): first sample seeds the history and returns 1;
later samples call assess_sensor_quality passing the current readings
and, in the hr_prev/spo2_prev argument positions, the absolute deltas
against the stored history (while the accel argument receives the stored
previous magnitude), then update the history. -/
def assessDataQuality (s : SystemState) : SystemState × Int :=
  if s.qualityMode.hasPreviousData = false then
    ({ s with qualityMode := { s.qualityMode with
        hasPreviousData := true,
        previousHeartRate := s.heartRate,
        previousSpO2 := s.spO2,
        previousAccelMag := fSqrt (s.ax * s.ax + s.ay * s.ay + s.az * s.az) } }, 1)
  else
    let currentAccelMag := fSqrt (s.ax * s.ax + s.ay * s.ay + s.az * s.az)
    let q := assess_sensor_quality s.heartRate s.spO2 s.ax s.ay s.az
      |s.heartRate - s.qualityMode.previousHeartRate|
      |s.spO2 - s.qualityMode.previousSpO2|
      s.qualityMode.previousAccelMag
    ({ s with qualityMode := { s.qualityMode with
        previousHeartRate := s.heartRate,
        previousSpO2 := s.spO2,
        previousAccelMag := currentAccelMag } }, q)

/-- sendData(): one report emission. Returns the updated state and the
payload formatted on this tick, if any. none models both the early
returns of the C code (not connected; the force-test closing tick) and
the collecting non-batch distance tick, on which the C code freshly
formats nothing (it re-notifies whatever is in the buffer). -/
def sendData (now : Nat) (s : SystemState) : SystemState × Option Payload :=
  if s.clientConnected = false then (s, none)
  else
    match s.currentMode with
    | MODE_HR_SPO2 =>
      (s, some (.hrSpo2 s.heartRate s.spO2 s.ax s.ay s.az now))
    | MODE_TEMPERATURE =>
      (s, some (.temperaturePl s.temperature now))
    | MODE_FORCE_TEST =>
      if s.forceTest.isCollecting ∧ u32sub now s.forceTest.collectionStartTime ≥ s.forceTest.collectionDuration then
        ({ s with forceTest := { s.forceTest with isCollecting := false, currentLabel := "waiting" } }, none)
      else
        (s, some (.forceTestPl s.irValue s.redValue s.fsrValue s.forceTest.currentLabel s.forceTest.isCollecting now))
    | MODE_DISTANCE_TEST =>
      if s.distanceTest.collectingData then
        let irSum : Nat := (s.distanceTest.irSum + s.irValue) % 2 ^ 32
        let redSum : Nat := (s.distanceTest.redSum + s.redValue) % 2 ^ 32
        let cnt : Nat := (s.distanceTest.sampleCount + 1) % 2 ^ 16
        let s1 := { s with distanceTest := { s.distanceTest with irSum := irSum, redSum := redSum, sampleCount := cnt } }
        if cnt % s.distanceTest.samplesPerBatch = 0 then
          (s1, some (.distAverage s.distanceTest.currentLED s.distanceTest.currentDistance
            ((irSum : ℚ) / (cnt : ℚ)) ((redSum : ℚ) / (cnt : ℚ)) cnt now))
        else (s1, none)
      else
        (s, some (.distRaw s.irValue s.redValue s.distanceTest.currentLED s.distanceTest.currentDistance
          s.distanceTest.collectingData now))
    | MODE_QUALITY =>
      let r := assessDataQuality s
      let total : Nat := (r.1.qualityMode.totalSamples + 1) % 2 ^ 32
      let good : Nat :=
        if r.2 > 0 then (r.1.qualityMode.goodQualitySamples + 1) % 2 ^ 32
        else r.1.qualityMode.goodQualitySamples
      let s1 := { r.1 with qualityMode := { r.1.qualityMode with totalSamples := total, goodQualitySamples := good } }
      let pct : ℚ := if total > 0 then (good : ℚ) / (total : ℚ) * 100 else 0
      (s1, some (.qualityPl s.heartRate s.spO2 s.ax s.ay s.az r.2 pct
        (fSqrt (s.ax * s.ax + s.ay * s.ay + s.az * s.az)) now))
    | MODE_RAW_DATA =>
      (s, some (.rawDataPl s.heartRate s.spO2 s.irValue s.redValue s.ax s.ay s.az now))
    | MODE_IDLE =>
      (s, some (.idlePl now))

/-- One firing report tick of loop(): read the sensors, emit, and restart
the report timer from the current millis() value. -/
def tick (r : Reading) (now : Nat) (s : SystemState) : SystemState × Option Payload :=
  let s1 := readSensorData r now s
  let p := sendData now s1
  ({ p.1 with tsLastReport := now }, p.2)

/-- ServerCallbacks::onConnect. -/
def onConnect (s : SystemState) : SystemState :=
  { s with clientConnected := true }

/-- ServerCallbacks::onDisconnect: full sensor teardown, fall back to
MODE_IDLE with the baseline period, and clear the transient session and
history flags. -/
def onDisconnect (s : SystemState) : SystemState :=
  let s1 := resetSensors { s with clientConnected := false }
  { s1 with
    currentMode := MODE_IDLE, reportingPeriod := 500, tsLastReport := 0,
    forceTest := { s1.forceTest with isCollecting := false },
    distanceTest := { s1.distanceTest with collectingData := false },
    temperatureMode := { s1.temperatureMode with tempSamplingStarted := false },
    qualityMode := { s1.qualityMode with hasPreviousData := false } }

/-- External events driving the firmware: an inbound command (with its
millis() arrival time and the environmental outcomes of the memory check
and of each sensor priming attempt it may trigger), a firing report
tick, and the transport callbacks. -/
inductive Event where
  | cmd (command : String) (now : Nat) (memOk : Bool) (oc : Nat → Bool)
  | tickEv (r : Reading) (now : Nat)
  | connect
  | disconnect

/-- One event step (payload discarded). -/
def stepState (s : SystemState) (e : Event) : SystemState :=
  match e with
  | .cmd c now memOk oc => handleControlCommand c now memOk oc s
  | .tickEv r now => (tick r now s).1
  | .connect => onConnect s
  | .disconnect => onDisconnect s

/-- The state after setup(): the initializers of the global variables. -/
def initialState : SystemState :=
  { currentMode := MODE_IDLE,
    tsLastReport := 0,
    reportingPeriod := 500,
    clientConnected := false,
    poxInitialized := false,
    rawSensorInitialized := false,
    heartRate := 0,
    spO2 := 0,
    ax := 0,
    ay := 0,
    az := 0,
    temperature := 0,
    irValue := 0,
    redValue := 0,
    fsrValue := 0,
    forceTest := { currentLabel := "waiting", isCollecting := false, collectionStartTime := 0, collectionDuration := 10000 },
    distanceTest := {
      currentLED := "none", currentDistance := 0, collectingData := false,
      irSum := 0, redSum := 0, sampleCount := 0, samplesPerBatch := 10 },
    temperatureMode := { tempSamplingStarted := false, tsLastTempSample := 0, tempSamplingPeriod := 1000 },
    qualityMode := {
      previousHeartRate := 0, previousSpO2 := 0, previousAccelMag := 0,
      hasPreviousData := false, totalSamples := 0, goodQualitySamples := 0 },
    busResets := 0 }

/-- The state reached from power-up after a sequence of events. -/
def runEvents (evs : List Event) : SystemState :=
  evs.foldl stepState initialState

/-- A priming oracle on which every attempt succeeds. -/
def ocTrue : Nat → Bool := fun _ => true

/-- A priming oracle on which every attempt fails. -/
def ocFalse : Nat → Bool := fun _ => false

/-- A priming oracle on which the first attempt fails and every retry
would succeed. -/
def ocRetryOk : Nat → Bool := fun i => decide (1 ≤ i)



/-- Iterated report ticks: run one tick per (reading, millis) pair,
collecting the per-tick payload outputs in order. -/
def ticksOut : List (Reading × Nat) → SystemState → SystemState × List (Option Payload)
  | [], s => (s, [])
  | p :: ps, s =>
    let q := tick p.1 p.2 s
    let rest := ticksOut ps q.1
    (rest.1, q.2 :: rest.2)

/-- Total of the ir channel over a tick input list. -/
def sumIr (ps : List (Reading × Nat)) : Nat :=
  (ps.map (fun p => p.1.ir)).sum

/-- Total of the red channel over a tick input list. -/
def sumRed (ps : List (Reading × Nat)) : Nat :=
  (ps.map (fun p => p.1.red)).sum

/-! Concrete fixture states and inputs used by witnesses and
counterexamples. -/

/-- A distance-test state with an active session and nonzero
accumulators (reachable via MODE:DISTANCE_TEST, START:red:50 and seven
ticks; see cexDisconnectEvents below for a reachability computation). -/
def sDistW : SystemState :=
  { initialState with
    currentMode := MODE_DISTANCE_TEST,
    clientConnected := true,
    rawSensorInitialized := true,
    distanceTest := {
      currentLED := "red", currentDistance := 50, collectingData := true,
      irSum := 70, redSum := 140, sampleCount := 7, samplesPerBatch := 10 } }

/-- A distance-test state right after a START:red:50 command: active
session, zeroed accumulators. -/
def sDistStart : SystemState :=
  { initialState with
    currentMode := MODE_DISTANCE_TEST,
    clientConnected := true,
    rawSensorInitialized := true,
    distanceTest := {
      currentLED := "red", currentDistance := 50, collectingData := true,
      irSum := 0, redSum := 0, sampleCount := 0, samplesPerBatch := 10 } }

/-- A force-test state with an active session labelled "push" started at
millis() = 1000. -/
def sForceW : SystemState :=
  { initialState with
    currentMode := MODE_FORCE_TEST,
    clientConnected := true,
    rawSensorInitialized := true,
    forceTest := {
      currentLabel := "push", isCollecting := true,
      collectionStartTime := 1000, collectionDuration := 10000 } }

/-- A quality-assessment state with a live pulse oximeter and no history
yet. -/
def sQualW : SystemState :=
  { initialState with
    currentMode := MODE_QUALITY,
    clientConnected := true,
    poxInitialized := true }

/-- A neutral reading: resting heart rate 70, SpO2 98, unit acceleration
along z. -/
def rQual : Reading :=
  { ax := 0, ay := 0, az := 1, hr := 70, spo2 := 98, ir := 0, red := 0,
    fsr := 0, tempReady := false, temp := 0 }

/-- A distance-test reading: ir = 10, red = 20. -/
def rDist : Reading :=
  { ax := 0, ay := 0, az := 0, hr := 0, spo2 := 0, ir := 10, red := 20,
    fsr := 0, tempReady := false, temp := 0 }

/-- A force-test reading: ir = 11, red = 22, fsr = 33. -/
def rForce : Reading :=
  { ax := 0, ay := 0, az := 0, hr := 0, spo2 := 0, ir := 11, red := 22,
    fsr := 33, tempReady := false, temp := 0 }

/-- An event sequence that starts a force-test session and then switches
mode: enter ForceTest, start collecting under label "push", then switch
to HeartRateSpO2. -/
def cexModeEvents : List Event :=
  [.cmd "MODE:FORCE_TEST" 0 true ocTrue,
   .cmd "LABEL:push" 5 true ocTrue,
   .cmd "MODE:HR_SPO2" 10 true ocTrue]

/-- An event sequence that accumulates seven distance samples, suffers a
disconnect, reconnects and re-enters DistanceTest mode. -/
def cexDisconnectEvents : List Event :=
  [.connect,
   .cmd "MODE:DISTANCE_TEST" 0 true ocTrue,
   .cmd "START:red:50" 0 true ocTrue,
   .tickEv rDist 0, .tickEv rDist 1, .tickEv rDist 2, .tickEv rDist 3,
   .tickEv rDist 4, .tickEv rDist 5, .tickEv rDist 6,
   .disconnect,
   .connect,
   .cmd "MODE:DISTANCE_TEST" 100 true ocTrue]

/-! Helper lemmas about the sensor lifecycle functions. -/

/-- The pulse oximeter retry loop only changes the two optical flags and
the bus reset counter, and it can only report the raw variant live if it
already was on entry. -/
lemma poxRetry_shape (oc : Nat → Bool) :
    ∀ (fuel i : Nat) (s : SystemState), ∃ b rb n,
      (poxRetry oc fuel i s).1 =
        { s with poxInitialized := b, rawSensorInitialized := rb, busResets := s.busResets + n } ∧
      (rb = true → s.rawSensorInitialized = true) := by
  intro fuel
  induction fuel with
  | zero =>
    intro i s
    exact ⟨false, s.rawSensorInitialized, 0, rfl, fun h => h⟩
  | succ fuel ih =>
    intro i s
    by_cases h : oc i = true
    · exact ⟨true, s.rawSensorInitialized, 0, by simp [poxRetry, h], fun h => h⟩
    · obtain ⟨b, rb, n, heq, himp⟩ := ih (i + 1) (resetSensors s)
      refine ⟨b, rb, n + 1, ?_, ?_⟩
      · have hstep : (poxRetry oc (fuel + 1) i s).1 = (poxRetry oc fuel (i + 1) (resetSensors s)).1 := by
          simp [poxRetry, h]
        rw [hstep, heq]
        simp [resetSensors, SystemState.mk.injEq]
        try omega
      · intro hrb
        have := himp hrb
        simp [resetSensors] at this

/-- initializePulseOximeter only changes the two optical flags and the
bus reset counter; when the memory check passes, the raw variant is left
torn down. -/
lemma initializePulseOximeter_shape (memOk : Bool) (oc : Nat → Bool) (s : SystemState) :
    ∃ b rb n,
      (initializePulseOximeter memOk oc s).1 =
        { s with poxInitialized := b, rawSensorInitialized := rb, busResets := s.busResets + n } ∧
      (memOk = true → rb = false) := by
  by_cases hm : memOk = true
  · obtain ⟨b, rb, n, heq, himp⟩ := poxRetry_shape oc 3 0 (resetSensors s)
    refine ⟨b, rb, n + 1, ?_, ?_⟩
    · have hstep : (initializePulseOximeter memOk oc s).1 = (poxRetry oc 3 0 (resetSensors s)).1 := by
        simp [initializePulseOximeter, hm]
      rw [hstep, heq]
      simp [resetSensors, SystemState.mk.injEq]
      try omega
    · intro _
      by_cases hrb : rb = true
      · have := himp hrb
        simp [resetSensors] at this
      · simpa using hrb
  · refine ⟨s.poxInitialized, s.rawSensorInitialized, 0, ?_, fun h => absurd h hm⟩
    simp only [initializePulseOximeter, hm]
    rfl

/-- initializeRawSensor only changes the two optical flags and the bus
reset counter; when the memory check passes, the pulse oximeter variant
is left torn down. -/
lemma initializeRawSensor_shape (memOk : Bool) (oc : Nat → Bool) (s : SystemState) :
    ∃ b rb n,
      (initializeRawSensor memOk oc s).1 =
        { s with poxInitialized := b, rawSensorInitialized := rb, busResets := s.busResets + n } ∧
      (memOk = true → b = false) := by
  by_cases hm : memOk = true
  · by_cases h0 : oc 0 = true
    · exact ⟨false, true, 1, by simp [initializeRawSensor, hm, h0, resetSensors], fun _ => rfl⟩
    · exact ⟨false, false, 1, by simp [initializeRawSensor, hm, h0, resetSensors], fun _ => rfl⟩
  · refine ⟨s.poxInitialized, s.rawSensorInitialized, 0, ?_, fun h => absurd h hm⟩
    simp only [initializeRawSensor, hm]
    rfl

/-- The sensor switch block of switchMode only changes the two optical
flags and the bus reset counter. -/
lemma switchSensors_shape (nm : OperatingMode) (memOk : Bool) (oc : Nat → Bool) (s : SystemState) :
    ∃ b rb n,
      switchSensors nm memOk oc s =
        { s with poxInitialized := b, rawSensorInitialized := rb, busResets := s.busResets + n } := by
  unfold switchSensors
  split
  · exact ⟨false, false, 1, rfl⟩
  · split
    · by_cases hr : s.rawSensorInitialized = true
      · obtain ⟨b, rb, n, heq, -⟩ := initializePulseOximeter_shape memOk oc (resetSensors s)
        refine ⟨b, rb, n + 1, ?_⟩
        rw [if_pos hr, heq]
        simp [resetSensors, SystemState.mk.injEq]
        try omega
      · obtain ⟨b, rb, n, heq, -⟩ := initializePulseOximeter_shape memOk oc s
        exact ⟨b, rb, n, by rw [if_neg hr, heq]⟩
    · split
      · by_cases hp : s.poxInitialized = true
        · obtain ⟨b, rb, n, heq, -⟩ := initializeRawSensor_shape memOk oc (resetSensors s)
          refine ⟨b, rb, n + 1, ?_⟩
          rw [if_pos hp, heq]
          simp [resetSensors, SystemState.mk.injEq]
          try omega
        · obtain ⟨b, rb, n, heq, -⟩ := initializeRawSensor_shape memOk oc s
          exact ⟨b, rb, n, by rw [if_neg hp, heq]⟩
      · exact ⟨s.poxInitialized, s.rawSensorInitialized, 0, rfl⟩

/-- Characterization of a genuine mode transition (resolved mode differs
from the current one): the new mode is committed, and exactly the
transient state of the mode being entered is reset, while the session
state of every other mode is carried over unchanged. -/
lemma switchMode_spec (name : String) (memOk : Bool) (oc : Nat → Bool) (s : SystemState)
    (h : (resolveMode name).1 ≠ s.currentMode) :
    (switchMode name memOk oc s).currentMode = (resolveMode name).1 ∧
    (switchMode name memOk oc s).forceTest =
      (if (resolveMode name).1 = MODE_FORCE_TEST then
        { s.forceTest with isCollecting := false, currentLabel := "waiting" }
      else s.forceTest) ∧
    (switchMode name memOk oc s).distanceTest =
      (if (resolveMode name).1 = MODE_DISTANCE_TEST then
        { s.distanceTest with collectingData := false, currentLED := "none", currentDistance := 0 }
      else s.distanceTest) ∧
    (switchMode name memOk oc s).qualityMode =
      (if (resolveMode name).1 = MODE_QUALITY then
        { s.qualityMode with hasPreviousData := false, totalSamples := 0, goodQualitySamples := 0 }
      else s.qualityMode) := by
  obtain ⟨b, rb, n, heq⟩ := switchSensors_shape (resolveMode name).1 memOk oc
    { s with currentMode := (resolveMode name).1, reportingPeriod := (resolveMode name).2, tsLastReport := 0 }
  have hsw : switchMode name memOk oc s =
      modeEntryReset (resolveMode name).1 (switchSensors (resolveMode name).1 memOk oc
        { s with currentMode := (resolveMode name).1, reportingPeriod := (resolveMode name).2, tsLastReport := 0 }) := by
    simp only [switchMode, if_neg h]
  rw [hsw, heq]
  unfold modeEntryReset
  rcases (resolveMode name).1 <;> simp

/-! Claim theorems. -/

/-- Claim C4, counterexample. The claim states that priming failures of
either optical variant are retried up to 3 times. For the raw variant
this is false: with an oracle on which the first attempt fails and any
retry would succeed, initializeRawSensor still fails and leaves the
handle uninitialized (no retry happens), while initializePulseOximeter
under the same oracle succeeds on its first retry. -/
theorem C4_raw_retry_counterexample :
    (initializeRawSensor true ocRetryOk initialState).2 = false ∧
    (initializeRawSensor true ocRetryOk initialState).1.rawSensorInitialized = false ∧
    (initializePulseOximeter true ocRetryOk initialState).2 = true ∧
    (initializePulseOximeter true ocRetryOk initialState).1.poxInitialized = true := by
  refine ⟨by decide, by decide, by decide, by decide⟩

/-- Claim C4, amended: only the pulse-oximetry variant retries priming
failures, up to 3 attempts with a full bus reset between attempts
(exhaustion leaves the handle uninitialized, reports failure, and has
performed 4 bus resets in total: the initial one plus one after each
failed attempt); the raw variant makes exactly one priming attempt whose
outcome is the return value, and on failure it immediately leaves the
handle uninitialized having performed only the single initial bus reset. -/
theorem C4_amended_retry (s : SystemState) (oc : Nat → Bool) :
    ((oc 0 = false ∧ oc 1 = false ∧ oc 2 = false) →
      (initializePulseOximeter true oc s).2 = false ∧
      (initializePulseOximeter true oc s).1.poxInitialized = false ∧
      (initializePulseOximeter true oc s).1.busResets = s.busResets + 4) ∧
    ((oc 0 = false ∧ oc 1 = false ∧ oc 2 = true) →
      (initializePulseOximeter true oc s).2 = true ∧
      (initializePulseOximeter true oc s).1.poxInitialized = true) ∧
    ((initializeRawSensor true oc s).2 = oc 0) ∧
    (oc 0 = false →
      (initializeRawSensor true oc s).1.rawSensorInitialized = false ∧
      (initializeRawSensor true oc s).1.busResets = s.busResets + 1) := by
  refine ⟨?_, ?_, ?_, ?_⟩
  · rintro ⟨h0, h1, h2⟩
    simp [initializePulseOximeter, poxRetry, resetSensors, h0, h1, h2]
  · rintro ⟨h0, h1, h2⟩
    simp [initializePulseOximeter, poxRetry, resetSensors, h0, h1, h2]
  · by_cases h0 : oc 0 = true
    · simp [initializeRawSensor, h0]
    · simp only [Bool.not_eq_true] at h0
      simp [initializeRawSensor, h0]
  · intro h0
    simp [initializeRawSensor, resetSensors, h0]

/-- Witness for C4_amended_retry at the all-failures oracle. -/
theorem C4_amended_retry_witness :
    (ocFalse 0 = false ∧ ocFalse 1 = false ∧ ocFalse 2 = false) ∧
    (initializePulseOximeter true ocFalse initialState).2 = false ∧
    (initializePulseOximeter true ocFalse initialState).1.poxInitialized = false ∧
    (initializePulseOximeter true ocFalse initialState).1.busResets = initialState.busResets + 4 ∧
    (initializeRawSensor true ocFalse initialState).2 = ocFalse 0 ∧
    (initializeRawSensor true ocFalse initialState).1.busResets = initialState.busResets + 1 := by
  have h := C4_amended_retry initialState ocFalse
  have h1 := h.1 ⟨rfl, rfl, rfl⟩
  exact ⟨⟨rfl, rfl, rfl⟩, h1.1, h1.2.1, h1.2.2, h.2.2.1, (h.2.2.2 rfl).2⟩

/-- Claim C8: a MODE command that resolves to the currently active mode
is a complete no-op: the state (mode, reporting period, report timer,
sensor flags, all session and history state, and the bus reset counter)
is returned unchanged. -/
theorem C8_same_mode_noop (s : SystemState) (command : String) (now : Nat) (memOk : Bool) (oc : Nat → Bool)
    (hpre : strHasPref command "MODE:" = true)
    (hres : (resolveMode (strDropN command 5)).1 = s.currentMode) :
    handleControlCommand command now memOk oc s = s := by
  unfold handleControlCommand
  simp only [hpre, if_true, switchMode, hres, if_pos]

/-- Witness for C8_same_mode_noop: MODE:IDLE received in the initial
(idle) state. -/
theorem C8_same_mode_noop_witness :
    strHasPref "MODE:IDLE" "MODE:" = true ∧
    (resolveMode (strDropN "MODE:IDLE" 5)).1 = initialState.currentMode ∧
    handleControlCommand "MODE:IDLE" 0 true ocTrue initialState = initialState :=
  ⟨by decide, by decide,
    C8_same_mode_noop initialState "MODE:IDLE" 0 true ocTrue (by decide) (by decide)⟩

/-- Claim C10: STOP in DistanceTest mode clears only the collecting flag
(the whole rest of the state, in particular the channel sums, sample
count, LED identifier and distance, is unchanged); STOP in ForceTest
mode clears the collecting flag and resets the label to "waiting"; and a
START command in DistanceTest mode is what resets the accumulators
(zeroing the sums and the sample count and setting the collecting flag). -/
theorem C10_stop_frame (s : SystemState) (now : Nat) (memOk : Bool) (oc : Nat → Bool) :
    (s.currentMode = MODE_DISTANCE_TEST →
      handleControlCommand "STOP" now memOk oc s =
        { s with distanceTest := { s.distanceTest with collectingData := false } }) ∧
    (s.currentMode = MODE_FORCE_TEST →
      handleControlCommand "STOP" now memOk oc s =
        { s with forceTest := { s.forceTest with isCollecting := false, currentLabel := "waiting" } }) ∧
    (s.currentMode = MODE_DISTANCE_TEST → ∀ arg : String,
      (startDistance arg s).distanceTest.irSum = 0 ∧
      (startDistance arg s).distanceTest.redSum = 0 ∧
      (startDistance arg s).distanceTest.sampleCount = 0 ∧
      (startDistance arg s).distanceTest.collectingData = true ∧
      handleControlCommand ("START:red:50") now memOk oc s = startDistance "red:50" s) := by
  refine ⟨?_, ?_, ?_⟩
  · intro h
    simp [handleControlCommand,
      (by decide : strHasPref "STOP" "MODE:" = false),
      (by decide : strHasPref "STOP" "LABEL:" = false),
      (by decide : strHasPref "STOP" "START:" = false), h]
  · intro h
    simp [handleControlCommand,
      (by decide : strHasPref "STOP" "MODE:" = false),
      (by decide : strHasPref "STOP" "LABEL:" = false),
      (by decide : strHasPref "STOP" "START:" = false), h]
  · intro h arg
    refine ⟨?_, ?_, ?_, ?_, ?_⟩
    · cases hp : (splitAtColon arg.data).2 <;> simp [startDistance, hp]
    · cases hp : (splitAtColon arg.data).2 <;> simp [startDistance, hp]
    · cases hp : (splitAtColon arg.data).2 <;> simp [startDistance, hp]
    · cases hp : (splitAtColon arg.data).2 <;> simp [startDistance, hp]
    · simp [handleControlCommand,
        (by decide : strHasPref "START:red:50" "MODE:" = false),
        (by decide : strHasPref "START:red:50" "LABEL:" = false),
        (by decide : strHasPref "START:red:50" "START:" = true),
        (by decide : strDropN "START:red:50" 6 = "red:50"), h]

/-- Witness for C10_stop_frame in a distance-test state with nonzero
accumulators. -/
theorem C10_stop_frame_witness :
    (sDistW.currentMode = MODE_DISTANCE_TEST) ∧
    handleControlCommand "STOP" 0 true ocTrue sDistW =
      { sDistW with distanceTest := { sDistW.distanceTest with collectingData := false } } ∧
    (startDistance "red:50" sDistW).distanceTest.irSum = 0 :=
  ⟨rfl, (C10_stop_frame sDistW 0 true ocTrue).1 rfl,
    (((C10_stop_frame sDistW 0 true ocTrue).2.2 rfl "red:50").1)⟩

/-- Claim C1, counterexample. The claimed invariant (an existing
acquisition session implies the mode is ForceTest or DistanceTest, every
mode transition resetting session state) is violated: starting a
ForceTest session and then switching to HeartRateSpO2 leaves the
ForceTest collecting flag set while the current mode is HeartRateSpO2,
because switchMode resets only the session state of the mode being
entered, not of the mode being left. -/
theorem C1_session_invariant_counterexample :
    (runEvents cexModeEvents).currentMode = MODE_HR_SPO2 ∧
    (runEvents cexModeEvents).forceTest.isCollecting = true := by
  constructor
  · decide
  · decide

/-- Claim C1, amended: a genuine mode transition commits the new mode
and resets the acquisition-session state of the mode being entered (so
ForceTest and DistanceTest always start with no active session), but it
leaves the session state of every other mode unchanged, so a session
flag of the departed mode can survive under the new mode. -/
theorem C1_amended_transition_session (name : String) (memOk : Bool) (oc : Nat → Bool) (s : SystemState)
    (h : (resolveMode name).1 ≠ s.currentMode) :
    (switchMode name memOk oc s).currentMode = (resolveMode name).1 ∧
    (switchMode name memOk oc s).forceTest =
      (if (resolveMode name).1 = MODE_FORCE_TEST then
        { s.forceTest with isCollecting := false, currentLabel := "waiting" }
      else s.forceTest) ∧
    (switchMode name memOk oc s).distanceTest =
      (if (resolveMode name).1 = MODE_DISTANCE_TEST then
        { s.distanceTest with collectingData := false, currentLED := "none", currentDistance := 0 }
      else s.distanceTest) := by
  obtain ⟨h1, h2, h3, -⟩ := switchMode_spec name memOk oc s h
  exact ⟨h1, h2, h3⟩

/-- Witness for C1_amended_transition_session: switching from a
ForceTest state with an active session to HeartRateSpO2 keeps the stale
session struct unchanged. -/
theorem C1_amended_transition_session_witness :
    ((resolveMode "HR_SPO2").1 ≠ sForceW.currentMode) ∧
    (switchMode "HR_SPO2" true ocTrue sForceW).currentMode = MODE_HR_SPO2 ∧
    (switchMode "HR_SPO2" true ocTrue sForceW).forceTest = sForceW.forceTest := by
  have h : (resolveMode "HR_SPO2").1 ≠ sForceW.currentMode := by decide
  obtain ⟨h1, h2, -⟩ := C1_amended_transition_session "HR_SPO2" true ocTrue sForceW h
  refine ⟨h, ?_, ?_⟩
  · rw [h1]
    decide
  · rw [h2, if_neg (by decide : ¬(resolveMode "HR_SPO2").1 = MODE_FORCE_TEST)]

/-- Claim C5, counterexample. After seven collected distance samples, a
disconnect, a reconnect and re-entry into DistanceTest mode, the channel
sums and the sample count from before the disconnect are still present
in the session state (they are reset by neither the disconnect teardown
nor the mode re-entry, only by a START command), contradicting the claim
that they are all cleared. -/
theorem C5_disconnect_counterexample :
    (runEvents cexDisconnectEvents).currentMode = MODE_DISTANCE_TEST ∧
    (runEvents cexDisconnectEvents).distanceTest.irSum = 70 ∧
    (runEvents cexDisconnectEvents).distanceTest.redSum = 140 ∧
    (runEvents cexDisconnectEvents).distanceTest.sampleCount = 7 := by
  refine ⟨by decide, by decide, by decide, by decide⟩

/-- Claim C5, amended: disconnect performs the Idle teardown (sensor
flags down, Idle mode, session and history flags cleared), and a
subsequent reconnect plus mode re-entry observes freshly reset
mode-entry state: in ForceTest the label is "waiting" and no session is
active; in DistanceTest no session is active, the LED identifier and
distance are reset, but the channel sums and the sample count retain
their pre-disconnect values (only a START command resets them); in
QualityAssessment the history flag and both counters are cleared. -/
theorem C5_amended_disconnect_reentry (s : SystemState) (now : Nat) (memOk : Bool) (oc : Nat → Bool) :
    ((onDisconnect s).currentMode = MODE_IDLE ∧
      (onDisconnect s).poxInitialized = false ∧
      (onDisconnect s).rawSensorInitialized = false ∧
      (onDisconnect s).forceTest.isCollecting = false ∧
      (onDisconnect s).distanceTest.collectingData = false ∧
      (onDisconnect s).qualityMode.hasPreviousData = false) ∧
    ((handleControlCommand "MODE:FORCE_TEST" now memOk oc (onConnect (onDisconnect s))).forceTest.isCollecting = false ∧
      (handleControlCommand "MODE:FORCE_TEST" now memOk oc (onConnect (onDisconnect s))).forceTest.currentLabel = "waiting") ∧
    ((handleControlCommand "MODE:DISTANCE_TEST" now memOk oc (onConnect (onDisconnect s))).distanceTest.collectingData = false ∧
      (handleControlCommand "MODE:DISTANCE_TEST" now memOk oc (onConnect (onDisconnect s))).distanceTest.currentLED = "none" ∧
      (handleControlCommand "MODE:DISTANCE_TEST" now memOk oc (onConnect (onDisconnect s))).distanceTest.currentDistance = 0 ∧
      (handleControlCommand "MODE:DISTANCE_TEST" now memOk oc (onConnect (onDisconnect s))).distanceTest.irSum = s.distanceTest.irSum ∧
      (handleControlCommand "MODE:DISTANCE_TEST" now memOk oc (onConnect (onDisconnect s))).distanceTest.redSum = s.distanceTest.redSum ∧
      (handleControlCommand "MODE:DISTANCE_TEST" now memOk oc (onConnect (onDisconnect s))).distanceTest.sampleCount = s.distanceTest.sampleCount) ∧
    ((handleControlCommand "MODE:QUALITY" now memOk oc (onConnect (onDisconnect s))).qualityMode.hasPreviousData = false ∧
      (handleControlCommand "MODE:QUALITY" now memOk oc (onConnect (onDisconnect s))).qualityMode.totalSamples = 0 ∧
      (handleControlCommand "MODE:QUALITY" now memOk oc (onConnect (onDisconnect s))).qualityMode.goodQualitySamples = 0) := by
  have hFT : handleControlCommand "MODE:FORCE_TEST" now memOk oc (onConnect (onDisconnect s)) =
      switchMode "FORCE_TEST" memOk oc (onConnect (onDisconnect s)) := by
    simp [handleControlCommand,
      (by decide : strHasPref "MODE:FORCE_TEST" "MODE:" = true),
      (by decide : strDropN "MODE:FORCE_TEST" 5 = "FORCE_TEST")]
  have hDT : handleControlCommand "MODE:DISTANCE_TEST" now memOk oc (onConnect (onDisconnect s)) =
      switchMode "DISTANCE_TEST" memOk oc (onConnect (onDisconnect s)) := by
    simp [handleControlCommand,
      (by decide : strHasPref "MODE:DISTANCE_TEST" "MODE:" = true),
      (by decide : strDropN "MODE:DISTANCE_TEST" 5 = "DISTANCE_TEST")]
  have hQ : handleControlCommand "MODE:QUALITY" now memOk oc (onConnect (onDisconnect s)) =
      switchMode "QUALITY" memOk oc (onConnect (onDisconnect s)) := by
    simp [handleControlCommand,
      (by decide : strHasPref "MODE:QUALITY" "MODE:" = true),
      (by decide : strDropN "MODE:QUALITY" 5 = "QUALITY")]
  have hmode : (onConnect (onDisconnect s)).currentMode = MODE_IDLE := rfl
  obtain ⟨-, f2, -, -⟩ := switchMode_spec "FORCE_TEST" memOk oc (onConnect (onDisconnect s))
    (by rw [hmode]; decide)
  obtain ⟨-, -, d3, -⟩ := switchMode_spec "DISTANCE_TEST" memOk oc (onConnect (onDisconnect s))
    (by rw [hmode]; decide)
  obtain ⟨-, -, -, q4⟩ := switchMode_spec "QUALITY" memOk oc (onConnect (onDisconnect s))
    (by rw [hmode]; decide)
  rw [if_pos (by decide : (resolveMode "FORCE_TEST").1 = MODE_FORCE_TEST)] at f2
  rw [if_pos (by decide : (resolveMode "DISTANCE_TEST").1 = MODE_DISTANCE_TEST)] at d3
  rw [if_pos (by decide : (resolveMode "QUALITY").1 = MODE_QUALITY)] at q4
  refine ⟨⟨rfl, rfl, rfl, rfl, rfl, rfl⟩, ?_, ?_, ?_⟩
  · rw [hFT, f2]
    exact ⟨rfl, rfl⟩
  · rw [hDT, d3]
    exact ⟨rfl, rfl, rfl, rfl, rfl, rfl⟩
  · rw [hQ, q4]
    exact ⟨rfl, rfl, rfl⟩

/-! Mutual exclusion of the two optical sensor variants. -/

/-- readSensorData never touches the sensor-initialized flags. -/
lemma readAccel_flags (r : Reading) (s : SystemState) :
    ((readAccel r s).poxInitialized = s.poxInitialized) ∧
    ((readAccel r s).rawSensorInitialized = s.rawSensorInitialized) :=
  ⟨rfl, rfl⟩

/-- readPox never touches the sensor-initialized flags. -/
lemma readPox_flags (r : Reading) (s : SystemState) :
    ((readPox r s).poxInitialized = s.poxInitialized) ∧
    ((readPox r s).rawSensorInitialized = s.rawSensorInitialized) := by
  simp only [readPox]
  split_ifs <;> exact ⟨rfl, rfl⟩

/-- readTemperatureUpd never touches the sensor-initialized flags. -/
lemma readTemperatureUpd_flags (r : Reading) (now : Nat) (s : SystemState) :
    ((readTemperatureUpd r now s).poxInitialized = s.poxInitialized) ∧
    ((readTemperatureUpd r now s).rawSensorInitialized = s.rawSensorInitialized) := by
  simp only [readTemperatureUpd]
  split_ifs <;> exact ⟨rfl, rfl⟩

/-- readRaw never touches the sensor-initialized flags. -/
lemma readRaw_flags (r : Reading) (now : Nat) (s : SystemState) :
    ((readRaw r now s).poxInitialized = s.poxInitialized) ∧
    ((readRaw r now s).rawSensorInitialized = s.rawSensorInitialized) := by
  simp only [readRaw]
  split_ifs with h1 h2
  · exact readTemperatureUpd_flags r now _
  · exact ⟨rfl, rfl⟩
  · exact ⟨rfl, rfl⟩

/-- readFsr never touches the sensor-initialized flags. -/
lemma readFsr_flags (r : Reading) (s : SystemState) :
    ((readFsr r s).poxInitialized = s.poxInitialized) ∧
    ((readFsr r s).rawSensorInitialized = s.rawSensorInitialized) := by
  simp only [readFsr]
  split_ifs <;> exact ⟨rfl, rfl⟩

lemma readSensorData_flags (r : Reading) (now : Nat) (s : SystemState) :
    ((readSensorData r now s).poxInitialized = s.poxInitialized) ∧
    ((readSensorData r now s).rawSensorInitialized = s.rawSensorInitialized) := by
  simp only [readSensorData]
  rw [(readFsr_flags r _).1, (readFsr_flags r _).2,
    (readRaw_flags r now _).1, (readRaw_flags r now _).2,
    (readPox_flags r _).1, (readPox_flags r _).2]
  exact ⟨(readAccel_flags r s).1, (readAccel_flags r s).2⟩

/-- assessDataQuality never touches the sensor-initialized flags. -/
lemma assessDataQuality_flags (s : SystemState) :
    ((assessDataQuality s).1.poxInitialized = s.poxInitialized) ∧
    ((assessDataQuality s).1.rawSensorInitialized = s.rawSensorInitialized) := by
  simp only [assessDataQuality]
  split_ifs <;> exact ⟨rfl, rfl⟩

/-- sendData never touches the sensor-initialized flags. -/
lemma sendData_flags (now : Nat) (s : SystemState) :
    ((sendData now s).1.poxInitialized = s.poxInitialized) ∧
    ((sendData now s).1.rawSensorInitialized = s.rawSensorInitialized) := by
  simp only [sendData]
  split
  · exact ⟨rfl, rfl⟩
  · split <;> try exact ⟨rfl, rfl⟩
    · split_ifs <;> exact ⟨rfl, rfl⟩
    · split_ifs <;> exact ⟨rfl, rfl⟩
    · exact ⟨(assessDataQuality_flags s).1, (assessDataQuality_flags s).2⟩

/-- A tick never touches the sensor-initialized flags. -/
lemma tick_flags (r : Reading) (now : Nat) (s : SystemState) :
    ((tick r now s).1.poxInitialized = s.poxInitialized) ∧
    ((tick r now s).1.rawSensorInitialized = s.rawSensorInitialized) := by
  have h1 : (tick r now s).1.poxInitialized
      = (sendData now (readSensorData r now s)).1.poxInitialized := rfl
  have h2 : (tick r now s).1.rawSensorInitialized
      = (sendData now (readSensorData r now s)).1.rawSensorInitialized := rfl
  rw [h1, h2, (sendData_flags now (readSensorData r now s)).1,
    (sendData_flags now (readSensorData r now s)).2,
    (readSensorData_flags r now s).1, (readSensorData_flags r now s).2]
  exact ⟨rfl, rfl⟩

/-- initializePulseOximeter preserves sensor-flag mutual exclusion. -/
lemma initializePulseOximeter_exclusive (memOk : Bool) (oc : Nat → Bool) (s : SystemState)
    (h : (s.poxInitialized && s.rawSensorInitialized) = false) :
    (((initializePulseOximeter memOk oc s).1).poxInitialized &&
      ((initializePulseOximeter memOk oc s).1).rawSensorInitialized) = false := by
  obtain ⟨b, rb, n, heq, himp⟩ := initializePulseOximeter_shape memOk oc s
  by_cases hm : memOk = true
  · rw [heq]
    simp [himp hm]
  · simp only [Bool.not_eq_true] at hm
    simp only [initializePulseOximeter, hm, Bool.false_eq_true, if_false]
    exact h

/-- initializeRawSensor preserves sensor-flag mutual exclusion. -/
lemma initializeRawSensor_exclusive (memOk : Bool) (oc : Nat → Bool) (s : SystemState)
    (h : (s.poxInitialized && s.rawSensorInitialized) = false) :
    (((initializeRawSensor memOk oc s).1).poxInitialized &&
      ((initializeRawSensor memOk oc s).1).rawSensorInitialized) = false := by
  obtain ⟨b, rb, n, heq, himp⟩ := initializeRawSensor_shape memOk oc s
  by_cases hm : memOk = true
  · rw [heq]
    simp [himp hm]
  · simp only [Bool.not_eq_true] at hm
    simp only [initializeRawSensor, hm, Bool.false_eq_true, if_false]
    exact h

/-- The sensor switch block preserves sensor-flag mutual exclusion. -/
lemma switchSensors_exclusive (nm : OperatingMode) (memOk : Bool) (oc : Nat → Bool) (s : SystemState)
    (h : (s.poxInitialized && s.rawSensorInitialized) = false) :
    ((switchSensors nm memOk oc s).poxInitialized &&
      (switchSensors nm memOk oc s).rawSensorInitialized) = false := by
  unfold switchSensors
  split
  · simp [resetSensors]
  · split
    · apply initializePulseOximeter_exclusive
      split
      · simp [resetSensors]
      · exact h
    · split
      · apply initializeRawSensor_exclusive
        split
        · simp [resetSensors]
        · exact h
      · exact h

/-- modeEntryReset never touches the sensor-initialized flags. -/
lemma modeEntryReset_flags (nm : OperatingMode) (s : SystemState) :
    ((modeEntryReset nm s).poxInitialized = s.poxInitialized) ∧
    ((modeEntryReset nm s).rawSensorInitialized = s.rawSensorInitialized) := by
  unfold modeEntryReset
  split_ifs <;> exact ⟨rfl, rfl⟩

/-- switchMode preserves sensor-flag mutual exclusion. -/
lemma switchMode_exclusive (name : String) (memOk : Bool) (oc : Nat → Bool) (s : SystemState)
    (h : (s.poxInitialized && s.rawSensorInitialized) = false) :
    ((switchMode name memOk oc s).poxInitialized &&
      (switchMode name memOk oc s).rawSensorInitialized) = false := by
  by_cases hc : (resolveMode name).1 = s.currentMode
  · rw [show switchMode name memOk oc s = s from by simp [switchMode, hc]]
    exact h
  · rw [show switchMode name memOk oc s =
        modeEntryReset (resolveMode name).1 (switchSensors (resolveMode name).1 memOk oc
          { s with currentMode := (resolveMode name).1,
                   reportingPeriod := (resolveMode name).2, tsLastReport := 0 }) from by
      simp only [switchMode, if_neg hc]]
    rw [(modeEntryReset_flags _ _).1, (modeEntryReset_flags _ _).2]
    exact switchSensors_exclusive _ memOk oc _ h

/-- handleControlCommand preserves sensor-flag mutual exclusion. -/
lemma handleControlCommand_exclusive (command : String) (now : Nat) (memOk : Bool) (oc : Nat → Bool)
    (s : SystemState) (h : (s.poxInitialized && s.rawSensorInitialized) = false) :
    ((handleControlCommand command now memOk oc s).poxInitialized &&
      (handleControlCommand command now memOk oc s).rawSensorInitialized) = false := by
  unfold handleControlCommand
  split
  · exact switchMode_exclusive _ memOk oc s h
  · split
    · split
      · exact h
      · exact h
    · split
      · split
        · unfold startDistance
          exact h
        · exact h
      · split
        · split_ifs <;> exact h
        · split
          · simp [resetSensors]
          · exact h

/-- One event step preserves sensor-flag mutual exclusion. -/
lemma stepState_exclusive (s : SystemState) (e : Event)
    (h : (s.poxInitialized && s.rawSensorInitialized) = false) :
    ((stepState s e).poxInitialized && (stepState s e).rawSensorInitialized) = false := by
  cases e with
  | cmd c now memOk oc => exact handleControlCommand_exclusive c now memOk oc s h
  | tickEv r now =>
    rw [show stepState s (.tickEv r now) = (tick r now s).1 from rfl,
      (tick_flags r now s).1, (tick_flags r now s).2]
    exact h
  | connect => exact h
  | disconnect =>
    rw [show stepState s .disconnect = onDisconnect s from rfl]
    rfl

/-- Claim C9: in every state reachable from power-up by any sequence of
commands, ticks and connect/disconnect events, the pulse-oximetry flag
and the raw-sensor flag are never both set (at most one optical variant
is live). -/
theorem C9_optical_exclusive (evs : List Event) :
    ((runEvents evs).poxInitialized && (runEvents evs).rawSensorInitialized) = false := by
  have hgen : ∀ (l : List Event) (s : SystemState),
      (s.poxInitialized && s.rawSensorInitialized) = false →
      ((l.foldl stepState s).poxInitialized && (l.foldl stepState s).rawSensorInitialized) = false := by
    intro l
    induction l with
    | nil => intro s h; exact h
    | cons e es ih =>
      intro s h
      exact ih (stepState s e) (stepState_exclusive s e h)
  exact hgen evs initialState rfl

/-! Tick behavior in the acquisition modes. -/

/-- In ForceTest mode with the raw sensor live, readSensorData refreshes
exactly the acceleration, the optical channels and the FSR value. -/
lemma readSensorData_force (r : Reading) (now : Nat) (s : SystemState)
    (hm : s.currentMode = MODE_FORCE_TEST) (hraw : s.rawSensorInitialized = true) :
    readSensorData r now s =
      { s with ax := r.ax, ay := r.ay, az := r.az,
               irValue := r.ir, redValue := r.red, fsrValue := r.fsr } := by
  simp [readSensorData, readAccel, readPox, readRaw, readFsr, hm, hraw]

/-- In DistanceTest mode with the raw sensor live, readSensorData
refreshes exactly the acceleration and the optical channels. -/
lemma readSensorData_dist (r : Reading) (now : Nat) (s : SystemState)
    (hm : s.currentMode = MODE_DISTANCE_TEST) (hraw : s.rawSensorInitialized = true) :
    readSensorData r now s =
      { s with ax := r.ax, ay := r.ay, az := r.az, irValue := r.ir, redValue := r.red } := by
  simp [readSensorData, readAccel, readPox, readRaw, readFsr, hm, hraw]

/-- Claim C7: in ForceTest mode with a connected client and the raw
sensor live: while a session is active and the collection duration has
not elapsed, every tick emits a payload carrying the session label with
collecting = true and leaves the session untouched; on the first tick at
which the elapsed time reaches the duration, the session closes, the
label reverts to "waiting" and no payload is emitted; once no session is
active, every tick emits a payload carrying the current (reverted) label
with collecting = false and changes no session state. -/
theorem C7_force_label_lifecycle (s : SystemState) (r : Reading) (now : Nat)
    (hm : s.currentMode = MODE_FORCE_TEST) (hc : s.clientConnected = true)
    (hraw : s.rawSensorInitialized = true) :
    (s.forceTest.isCollecting = true →
      u32sub now s.forceTest.collectionStartTime < s.forceTest.collectionDuration →
      (tick r now s).2 = some (.forceTestPl r.ir r.red r.fsr s.forceTest.currentLabel true now) ∧
      (tick r now s).1.forceTest = s.forceTest ∧
      (tick r now s).1.currentMode = MODE_FORCE_TEST ∧
      (tick r now s).1.clientConnected = true ∧
      (tick r now s).1.rawSensorInitialized = true) ∧
    (s.forceTest.isCollecting = true →
      u32sub now s.forceTest.collectionStartTime ≥ s.forceTest.collectionDuration →
      (tick r now s).2 = none ∧
      (tick r now s).1.forceTest.isCollecting = false ∧
      (tick r now s).1.forceTest.currentLabel = "waiting" ∧
      (tick r now s).1.currentMode = MODE_FORCE_TEST ∧
      (tick r now s).1.clientConnected = true ∧
      (tick r now s).1.rawSensorInitialized = true) ∧
    (s.forceTest.isCollecting = false →
      (tick r now s).2 = some (.forceTestPl r.ir r.red r.fsr s.forceTest.currentLabel false now) ∧
      (tick r now s).1.forceTest = s.forceTest ∧
      (tick r now s).1.currentMode = MODE_FORCE_TEST ∧
      (tick r now s).1.clientConnected = true ∧
      (tick r now s).1.rawSensorInitialized = true) := by
  have hread := readSensorData_force r now s hm hraw
  refine ⟨?_, ?_, ?_⟩
  · intro hcol htime
    have hn : ¬(s.forceTest.collectionDuration ≤ u32sub now s.forceTest.collectionStartTime) := by
      omega
    simp [tick, hread, sendData, hm, hc, hraw, hn, hcol]
  · intro hcol htime
    have hp : s.forceTest.collectionDuration ≤ u32sub now s.forceTest.collectionStartTime := htime
    simp [tick, hread, sendData, hm, hc, hraw, hp, hcol]
  · intro hcol
    simp [tick, hread, sendData, hm, hc, hraw, hcol]

/-- Witness for C7_force_label_lifecycle: a session labelled "push"
started at millis 1000 reports "push"/collecting at millis 2000, and at
millis 11000 (duration 10000 elapsed) closes silently and reverts the
label. -/
theorem C7_force_label_lifecycle_witness :
    (sForceW.currentMode = MODE_FORCE_TEST ∧ sForceW.clientConnected = true ∧
      sForceW.rawSensorInitialized = true ∧ sForceW.forceTest.isCollecting = true ∧
      u32sub 2000 sForceW.forceTest.collectionStartTime < sForceW.forceTest.collectionDuration ∧
      u32sub 11000 sForceW.forceTest.collectionStartTime ≥ sForceW.forceTest.collectionDuration) ∧
    (tick rForce 2000 sForceW).2 = some (.forceTestPl 11 22 33 "push" true 2000) ∧
    (tick rForce 11000 sForceW).2 = none ∧
    (tick rForce 11000 sForceW).1.forceTest.isCollecting = false ∧
    (tick rForce 11000 sForceW).1.forceTest.currentLabel = "waiting" := by
  refine ⟨⟨rfl, rfl, rfl, rfl, by decide, by decide⟩, ?_, ?_, ?_, ?_⟩
  · have h := (C7_force_label_lifecycle sForceW rForce 2000 rfl rfl rfl).1 rfl (by decide)
    rw [h.1]
    rfl
  · exact ((C7_force_label_lifecycle sForceW rForce 11000 rfl rfl rfl).2.1 rfl (by decide)).1
  · exact ((C7_force_label_lifecycle sForceW rForce 11000 rfl rfl rfl).2.1 rfl (by decide)).2.1
  · exact ((C7_force_label_lifecycle sForceW rForce 11000 rfl rfl rfl).2.1 rfl (by decide)).2.2.1

/-- Claim C3, counterexample. The claim states that in DistanceTest mode
with an active session every tick emits a per-tick raw payload with the
current ir/red readings independently of the batch signal. In fact,
while a session is active the raw payload branch is never taken: on a
tick whose sample index is not a batch multiple the firmware formats no
fresh payload at all (the C code re-notifies a stale buffer). -/
theorem C3_raw_payload_counterexample :
    sDistW.distanceTest.collectingData = true ∧
    (tick rDist 0 sDistW).2 = none := by
  exact ⟨rfl, by decide⟩

/-- Claim C3, amended: in DistanceTest mode with a connected client and
the raw sensor live, the per-tick raw payload (carrying the current
ir/red readings) is emitted exactly on ticks where no session is active;
while a session is active, a non-batch tick formats no fresh payload. -/
theorem C3_amended_raw_payload (s : SystemState) (r : Reading) (now : Nat)
    (hm : s.currentMode = MODE_DISTANCE_TEST) (hc : s.clientConnected = true)
    (hraw : s.rawSensorInitialized = true) :
    (s.distanceTest.collectingData = false →
      (tick r now s).2 = some (.distRaw r.ir r.red s.distanceTest.currentLED
        s.distanceTest.currentDistance false now)) ∧
    (s.distanceTest.collectingData = true →
      (s.distanceTest.sampleCount + 1) % 2 ^ 16 % s.distanceTest.samplesPerBatch ≠ 0 →
      (tick r now s).2 = none) := by
  have hread := readSensorData_dist r now s hm hraw
  constructor
  · intro hcol
    simp [tick, hread, sendData, hm, hc, hraw, hcol]
  · intro hcol hbatch
    have hbatch2 : (s.distanceTest.sampleCount + 1) % 65536 % s.distanceTest.samplesPerBatch ≠ 0 := by
      simpa using hbatch
    simp [tick, hread, sendData, hm, hc, hraw, hcol, hbatch2]

/-- Witness for C3_amended_raw_payload: with no active session the raw
payload is emitted; with an active session at sample index 0 the tick
formats nothing. -/
theorem C3_amended_raw_payload_witness :
    (sDistW.currentMode = MODE_DISTANCE_TEST ∧ sDistW.clientConnected = true ∧
      sDistW.rawSensorInitialized = true ∧
      (sDistW.distanceTest.sampleCount + 1) % 2 ^ 16 % sDistW.distanceTest.samplesPerBatch ≠ 0) ∧
    (tick rDist 3 { sDistW with
        distanceTest := { sDistW.distanceTest with collectingData := false } }).2 =
      some (.distRaw 10 20 "red" 50 false 3) ∧
    (tick rDist 3 sDistW).2 = none := by
  refine ⟨⟨rfl, rfl, rfl, by decide⟩, ?_, ?_⟩
  · have h := (C3_amended_raw_payload
      { sDistW with distanceTest := { sDistW.distanceTest with collectingData := false } }
      rDist 3 rfl rfl rfl).1 rfl
    rw [h]
    rfl
  · exact (C3_amended_raw_payload sDistW rDist 3 rfl rfl rfl).2 rfl (by decide)

/-- One collecting distance-test tick, without wraparound: accumulates
the reading into the running sums, increments the sample count, and
emits the average payload exactly when the new count is a batch
multiple. -/
lemma distTick_step (s : SystemState) (r : Reading) (now : Nat)
    (hm : s.currentMode = MODE_DISTANCE_TEST) (hc : s.clientConnected = true)
    (hraw : s.rawSensorInitialized = true) (hcol : s.distanceTest.collectingData = true)
    (hcnt : s.distanceTest.sampleCount + 1 < 65536)
    (hir : s.distanceTest.irSum + r.ir < 4294967296)
    (hred : s.distanceTest.redSum + r.red < 4294967296) :
    (tick r now s).1.currentMode = MODE_DISTANCE_TEST ∧
    (tick r now s).1.clientConnected = true ∧
    (tick r now s).1.rawSensorInitialized = true ∧
    (tick r now s).1.distanceTest = { s.distanceTest with
        irSum := s.distanceTest.irSum + r.ir,
        redSum := s.distanceTest.redSum + r.red,
        sampleCount := s.distanceTest.sampleCount + 1 } ∧
    (tick r now s).2 = (if (s.distanceTest.sampleCount + 1) % s.distanceTest.samplesPerBatch = 0 then
        some (.distAverage s.distanceTest.currentLED s.distanceTest.currentDistance
          (((s.distanceTest.irSum + r.ir : Nat) : ℚ) / ((s.distanceTest.sampleCount + 1 : Nat) : ℚ))
          (((s.distanceTest.redSum + r.red : Nat) : ℚ) / ((s.distanceTest.sampleCount + 1 : Nat) : ℚ))
          (s.distanceTest.sampleCount + 1) now)
      else none) := by
  have hread := readSensorData_dist r now s hm hraw
  have h1 : (s.distanceTest.irSum + r.ir) % 4294967296 = s.distanceTest.irSum + r.ir :=
    Nat.mod_eq_of_lt hir
  have h2 : (s.distanceTest.redSum + r.red) % 4294967296 = s.distanceTest.redSum + r.red :=
    Nat.mod_eq_of_lt hred
  have h3 : (s.distanceTest.sampleCount + 1) % 65536 = s.distanceTest.sampleCount + 1 :=
    Nat.mod_eq_of_lt hcnt
  refine ⟨?_, ?_, ?_, ?_, ?_⟩
  · simp [tick, hread, sendData, hm, hc, hraw, hcol, h1, h2, h3]
    all_goals split_ifs <;> rfl
  · simp [tick, hread, sendData, hm, hc, hraw, hcol, h1, h2, h3]
    all_goals split_ifs <;> rfl
  · simp [tick, hread, sendData, hm, hc, hraw, hcol, h1, h2, h3]
    all_goals split_ifs <;> rfl
  · simp [tick, hread, sendData, hm, hc, hraw, hcol, h1, h2, h3]
    all_goals split_ifs <;> rfl
  · simp [tick, hread, sendData, hm, hc, hraw, hcol, h1, h2, h3]
    all_goals split_ifs <;> rfl

/-- Splitting an iterated tick run. -/
lemma ticksOut_append (ps qs : List (Reading × Nat)) : ∀ (s : SystemState),
    ticksOut (ps ++ qs) s =
      ((ticksOut qs (ticksOut ps s).1).1, (ticksOut ps s).2 ++ (ticksOut qs (ticksOut ps s).1).2) := by
  induction ps with
  | nil => intro s; rfl
  | cons p ps ih =>
    intro s
    simp only [List.cons_append, ticksOut, List.append_eq]
    rw [ih (tick p.1 p.2 s).1]

/-- A collecting distance-test run that stays strictly below the batch
boundary: every tick emits nothing, the sums accumulate the channel
totals, and the sample count advances by the run length. -/
lemma distRun_below (ps : List (Reading × Nat)) : ∀ (s : SystemState),
    s.currentMode = MODE_DISTANCE_TEST → s.clientConnected = true →
    s.rawSensorInitialized = true → s.distanceTest.collectingData = true →
    s.distanceTest.samplesPerBatch = 10 →
    s.distanceTest.sampleCount + ps.length < 10 →
    (∀ p ∈ ps, p.1.ir < 65536 ∧ p.1.red < 65536) →
    s.distanceTest.irSum + sumIr ps < 4294967296 →
    s.distanceTest.redSum + sumRed ps < 4294967296 →
    (ticksOut ps s).1.currentMode = MODE_DISTANCE_TEST ∧
    (ticksOut ps s).1.clientConnected = true ∧
    (ticksOut ps s).1.rawSensorInitialized = true ∧
    (ticksOut ps s).1.distanceTest = { s.distanceTest with
        irSum := s.distanceTest.irSum + sumIr ps,
        redSum := s.distanceTest.redSum + sumRed ps,
        sampleCount := s.distanceTest.sampleCount + ps.length } ∧
    (ticksOut ps s).2 = List.replicate ps.length none := by
  induction ps with
  | nil =>
    intro s hm hc hraw hcol hb hlen hbounds hir hred
    refine ⟨hm, hc, hraw, ?_, rfl⟩
    simp [ticksOut, sumIr, sumRed]
  | cons p ps ih =>
    intro s hm hc hraw hcol hb hlen hbounds hir hred
    have hpb := hbounds p (List.mem_cons_self p ps)
    have hsums : sumIr (p :: ps) = p.1.ir + sumIr ps := by simp [sumIr]
    have hsumr : sumRed (p :: ps) = p.1.red + sumRed ps := by simp [sumRed]
    rw [hsums] at hir
    rw [hsumr] at hred
    obtain ⟨m1, c1, w1, d1, o1⟩ := distTick_step s p.1 p.2 hm hc hraw hcol
      (by simp at hlen; omega) (by omega) (by omega)
    have hcol1 : (tick p.1 p.2 s).1.distanceTest.collectingData = true := by
      rw [d1]
      exact hcol
    have hb1 : (tick p.1 p.2 s).1.distanceTest.samplesPerBatch = 10 := by
      rw [d1]
      exact hb
    have hcnt1 : (tick p.1 p.2 s).1.distanceTest.sampleCount = s.distanceTest.sampleCount + 1 := by
      rw [d1]
    have hir1 : (tick p.1 p.2 s).1.distanceTest.irSum = s.distanceTest.irSum + p.1.ir := by
      rw [d1]
    have hred1 : (tick p.1 p.2 s).1.distanceTest.redSum = s.distanceTest.redSum + p.1.red := by
      rw [d1]
    have hlen1 : (tick p.1 p.2 s).1.distanceTest.sampleCount + ps.length < 10 := by
      rw [hcnt1]
      simp at hlen
      omega
    obtain ⟨M, C, W, D, O⟩ := ih (tick p.1 p.2 s).1 m1 c1 w1 hcol1 hb1 hlen1
      (fun q hq => hbounds q (List.mem_cons_of_mem p hq))
      (by rw [hir1]; omega) (by rw [hred1]; omega)
    have hnot : ¬((s.distanceTest.sampleCount + 1) % s.distanceTest.samplesPerBatch = 0) := by
      rw [hb]
      simp at hlen
      omega
    refine ⟨?_, ?_, ?_, ?_, ?_⟩
    · rw [show (ticksOut (p :: ps) s).1 = (ticksOut ps (tick p.1 p.2 s).1).1 from rfl]
      exact M
    · rw [show (ticksOut (p :: ps) s).1 = (ticksOut ps (tick p.1 p.2 s).1).1 from rfl]
      exact C
    · rw [show (ticksOut (p :: ps) s).1 = (ticksOut ps (tick p.1 p.2 s).1).1 from rfl]
      exact W
    · rw [show (ticksOut (p :: ps) s).1 = (ticksOut ps (tick p.1 p.2 s).1).1 from rfl]
      rw [D, d1, hsums, hsumr]
      simp [DistanceTestS.mk.injEq, Nat.add_assoc, Nat.add_comm, Nat.add_left_comm]
    · rw [show (ticksOut (p :: ps) s).2 = (tick p.1 p.2 s).2 :: (ticksOut ps (tick p.1 p.2 s).1).2 from rfl]
      rw [O, o1, if_neg hnot]
      rfl

/-- Bound on the accumulated ir total for uint16 readings. -/
lemma sumIr_le (ps : List (Reading × Nat)) (h : ∀ p ∈ ps, p.1.ir < 65536) :
    sumIr ps ≤ ps.length * 65535 := by
  induction ps with
  | nil => simp [sumIr]
  | cons p ps ih =>
    have hp := h p (List.mem_cons_self p ps)
    have hr := ih (fun q hq => h q (List.mem_cons_of_mem p hq))
    have hstep : sumIr (p :: ps) = p.1.ir + sumIr ps := by simp [sumIr]
    rw [hstep, List.length_cons]
    omega

/-- Bound on the accumulated red total for uint16 readings. -/
lemma sumRed_le (ps : List (Reading × Nat)) (h : ∀ p ∈ ps, p.1.red < 65536) :
    sumRed ps ≤ ps.length * 65535 := by
  induction ps with
  | nil => simp [sumRed]
  | cons p ps ih =>
    have hp := h p (List.mem_cons_self p ps)
    have hr := ih (fun q hq => h q (List.mem_cons_of_mem p hq))
    have hstep : sumRed (p :: ps) = p.1.red + sumRed ps := by simp [sumRed]
    rw [hstep, List.length_cons]
    omega

/-- Claim C6: in DistanceTest mode, starting from a fresh session
(zeroed sums and count) and ticking through ten uint16 readings, the
first nine ticks emit nothing and the tenth emits exactly one average
payload whose reported sample count is the batch size 10 and whose
reported averages are the arithmetic means (total over count) of all
channel readings since session start; afterwards the running sums and
the sample count hold the full totals — they are not reset by the
emission — and the session is still collecting. -/
theorem C6_distance_batch_average (s : SystemState) (ps : List (Reading × Nat)) (p10 : Reading × Nat)
    (hm : s.currentMode = MODE_DISTANCE_TEST) (hc : s.clientConnected = true)
    (hraw : s.rawSensorInitialized = true) (hcol : s.distanceTest.collectingData = true)
    (hb : s.distanceTest.samplesPerBatch = 10)
    (hcnt0 : s.distanceTest.sampleCount = 0)
    (hir0 : s.distanceTest.irSum = 0) (hred0 : s.distanceTest.redSum = 0)
    (hlen : ps.length = 9)
    (hbounds : ∀ p ∈ ps, p.1.ir < 65536 ∧ p.1.red < 65536)
    (hpb : p10.1.ir < 65536 ∧ p10.1.red < 65536) :
    (ticksOut (ps ++ [p10]) s).2 =
      List.replicate 9 none ++
        [some (.distAverage s.distanceTest.currentLED s.distanceTest.currentDistance
          (((sumIr ps + p10.1.ir : Nat) : ℚ) / ((10 : Nat) : ℚ))
          (((sumRed ps + p10.1.red : Nat) : ℚ) / ((10 : Nat) : ℚ)) 10 p10.2)] ∧
    (ticksOut (ps ++ [p10]) s).1.distanceTest.irSum = sumIr ps + p10.1.ir ∧
    (ticksOut (ps ++ [p10]) s).1.distanceTest.redSum = sumRed ps + p10.1.red ∧
    (ticksOut (ps ++ [p10]) s).1.distanceTest.sampleCount = 10 ∧
    (ticksOut (ps ++ [p10]) s).1.distanceTest.collectingData = true := by
  have hsum1 : sumIr ps ≤ 9 * 65535 := by
    have := sumIr_le ps (fun p hp => (hbounds p hp).1)
    rw [hlen] at this
    exact this
  have hsum2 : sumRed ps ≤ 9 * 65535 := by
    have := sumRed_le ps (fun p hp => (hbounds p hp).2)
    rw [hlen] at this
    exact this
  obtain ⟨M, C, W, D, O⟩ := distRun_below ps s hm hc hraw hcol hb
    (by rw [hcnt0, hlen]; omega) hbounds (by rw [hir0]; omega) (by rw [hred0]; omega)
  have hcolX : (ticksOut ps s).1.distanceTest.collectingData = true := by
    rw [D]
    exact hcol
  have hbX : (ticksOut ps s).1.distanceTest.samplesPerBatch = 10 := by
    rw [D]
    exact hb
  have hcntX : (ticksOut ps s).1.distanceTest.sampleCount = 9 := by
    rw [D]
    simp [hcnt0, hlen]
  have hirX : (ticksOut ps s).1.distanceTest.irSum = sumIr ps := by
    rw [D]
    simp [hir0]
  have hredX : (ticksOut ps s).1.distanceTest.redSum = sumRed ps := by
    rw [D]
    simp [hred0]
  have hledX : (ticksOut ps s).1.distanceTest.currentLED = s.distanceTest.currentLED := by
    rw [D]
  have hdistX : (ticksOut ps s).1.distanceTest.currentDistance = s.distanceTest.currentDistance := by
    rw [D]
  obtain ⟨m2, c2, w2, d2, o2⟩ := distTick_step (ticksOut ps s).1 p10.1 p10.2 M C W hcolX
    (by rw [hcntX]; omega) (by rw [hirX]; omega) (by rw [hredX]; omega)
  rw [hcntX, hbX, hirX, hredX, hledX, hdistX] at o2
  simp only [show (9 + 1) % 10 = 0 from rfl, if_true] at o2
  rw [hcntX, hirX, hredX] at d2
  have happ := ticksOut_append ps [p10] s
  have hsingle : ticksOut [p10] (ticksOut ps s).1 =
      ((tick p10.1 p10.2 (ticksOut ps s).1).1, [(tick p10.1 p10.2 (ticksOut ps s).1).2]) := rfl
  refine ⟨?_, ?_, ?_, ?_, ?_⟩
  · rw [happ, hsingle]
    rw [show ((ticksOut ps s).2 ++ [(tick p10.1 p10.2 (ticksOut ps s).1).2]) =
      (ticksOut ps s).2 ++ [(tick p10.1 p10.2 (ticksOut ps s).1).2] from rfl]
    rw [O, o2, hlen]
  · rw [happ, hsingle]
    rw [show ((tick p10.1 p10.2 (ticksOut ps s).1).1, [(tick p10.1 p10.2 (ticksOut ps s).1).2]).1
      = (tick p10.1 p10.2 (ticksOut ps s).1).1 from rfl, d2]
  · rw [happ, hsingle]
    rw [show ((tick p10.1 p10.2 (ticksOut ps s).1).1, [(tick p10.1 p10.2 (ticksOut ps s).1).2]).1
      = (tick p10.1 p10.2 (ticksOut ps s).1).1 from rfl, d2]
  · rw [happ, hsingle]
    rw [show ((tick p10.1 p10.2 (ticksOut ps s).1).1, [(tick p10.1 p10.2 (ticksOut ps s).1).2]).1
      = (tick p10.1 p10.2 (ticksOut ps s).1).1 from rfl, d2]
  · rw [happ, hsingle]
    rw [show ((tick p10.1 p10.2 (ticksOut ps s).1).1, [(tick p10.1 p10.2 (ticksOut ps s).1).2]).1
      = (tick p10.1 p10.2 (ticksOut ps s).1).1 from rfl, d2]
    exact hcolX

/-- Witness for C6_distance_batch_average: ten readings with ir = 10 and
red = 20 from a fresh session leave irSum = 100 and sampleCount = 10
(still collecting) after the batch emission. -/
theorem C6_distance_batch_average_witness :
    (sDistStart.currentMode = MODE_DISTANCE_TEST ∧ sDistStart.clientConnected = true ∧
      sDistStart.rawSensorInitialized = true ∧ sDistStart.distanceTest.collectingData = true ∧
      sDistStart.distanceTest.samplesPerBatch = 10 ∧ sDistStart.distanceTest.sampleCount = 0 ∧
      (List.replicate 9 ((rDist, 0) : Reading × Nat)).length = 9) ∧
    (ticksOut (List.replicate 9 ((rDist, 0) : Reading × Nat) ++ [(rDist, 9)]) sDistStart).1.distanceTest.irSum = 100 ∧
    (ticksOut (List.replicate 9 ((rDist, 0) : Reading × Nat) ++ [(rDist, 9)]) sDistStart).1.distanceTest.redSum = 200 ∧
    (ticksOut (List.replicate 9 ((rDist, 0) : Reading × Nat) ++ [(rDist, 9)]) sDistStart).1.distanceTest.sampleCount = 10 ∧
    (ticksOut (List.replicate 9 ((rDist, 0) : Reading × Nat) ++ [(rDist, 9)]) sDistStart).1.distanceTest.collectingData = true := by
  have h := C6_distance_batch_average sDistStart (List.replicate 9 ((rDist, 0) : Reading × Nat))
    ((rDist, 9)) rfl rfl rfl rfl rfl rfl rfl rfl (by decide) (by decide) (by decide)
  refine ⟨⟨rfl, rfl, rfl, rfl, rfl, rfl, by decide⟩, ?_, ?_, ?_, ?_⟩
  · rw [h.2.1]
    decide
  · rw [h.2.2.1]
    decide
  · exact h.2.2.2.1
  · exact h.2.2.2.2

/-! The quality-assessment double-delta behavior. -/

/-- Truncation of an integer-valued rational is that integer. -/
lemma ratTrunc_intCast (n : ℤ) : ratTrunc ((n : ℚ)) = n := by
  rw [ratTrunc, Rat.num_intCast, Rat.den_intCast]
  exact_mod_cast Int.tdiv_one n

/-- The model quantization of an integer-valued rational within the
int32 range. -/
lemma qFeature_eval (q : ℚ) (n : ℤ) (h : q * 1000 = (n : ℚ)) (hlo : -(2 ^ 31) ≤ n)
    (hhi : n < 2 ^ 31) : qFeature q = n := by
  rw [qFeature, h, ratTrunc_intCast, i32]
  omega

/-- The square root of one. -/
lemma fSqrt_one : fSqrt 1 = 1 := by
  have h1 : (1 : ℚ).num = 1 := rfl
  have h2 : (1 : ℚ).den = 1 := rfl
  rw [fSqrt, h1, h2, show Int.sqrt 1 = 1 from by decide, show Nat.sqrt 1 = 1 from by decide]
  norm_num

/-- The quantized feature vector that the firmware hands to the model
for two consecutive identical samples (hr 70, SpO2 98, unit
acceleration): because assessDataQuality passes the absolute deltas in
the hr_prev/spo2_prev argument slots and assess_sensor_quality then
takes deltas against those arguments again, the HR and SpO2 delta
features equal the raw readings 70 and 98 instead of 0. -/
lemma assess_double_delta_eval :
    assess_sensor_quality 70 98 0 0 1 0 0 1 =
      predictFromQuantized ![70000, 98000, 1000, 70000, 98000, 0] := by
  have hmag : fSqrt ((0 : ℚ) * 0 + 0 * 0 + 1 * 1) = 1 := by
    rw [show ((0 : ℚ) * 0 + 0 * 0 + 1 * 1) = 1 from by norm_num]
    exact fSqrt_one
  rw [assess_sensor_quality]
  rw [hmag]
  rw [predict_quality]
  congr 1
  funext i
  fin_cases i
  · exact qFeature_eval _ 70000 (by norm_num) (by norm_num) (by norm_num)
  · exact qFeature_eval _ 98000 (by norm_num) (by norm_num) (by norm_num)
  · exact qFeature_eval _ 1000 (by norm_num) (by norm_num) (by norm_num)
  · exact qFeature_eval _ 70000 (by norm_num) (by norm_num) (by norm_num)
  · exact qFeature_eval _ 98000 (by norm_num) (by norm_num) (by norm_num)
  · exact qFeature_eval _ 0 (by norm_num) (by norm_num) (by norm_num)

/-- On the firmware, two consecutive identical quality samples yield the
poor-quality decision 0. -/
lemma assess_identical_zero : assess_sensor_quality 70 98 0 0 1 0 0 1 = 0 := by
  rw [assess_double_delta_eval]
  decide

/-- The model evaluated at the same current readings with all three
delta features zero yields the good-quality decision 1. -/
lemma predict_zero_deltas_one : predict_quality ![70, 98, 1, 0, 0, 0] = 1 := by
  rw [predict_quality]
  rw [show (fun i => qFeature ((![70, 98, 1, 0, 0, 0] : Fin 6 → ℚ) i)) =
      ![70000, 98000, 1000, 0, 0, 0] from ?_]
  · decide
  · funext i
    fin_cases i
    · exact qFeature_eval _ 70000 (by norm_num) (by norm_num) (by norm_num)
    · exact qFeature_eval _ 98000 (by norm_num) (by norm_num) (by norm_num)
    · exact qFeature_eval _ 1000 (by norm_num) (by norm_num) (by norm_num)
    · exact qFeature_eval _ 0 (by norm_num) (by norm_num) (by norm_num)
    · exact qFeature_eval _ 0 (by norm_num) (by norm_num) (by norm_num)
    · exact qFeature_eval _ 0 (by norm_num) (by norm_num) (by norm_num)

/-- Claim C2, code evaluation at the failing input. The claim states
that on every sample after the first the classifier is fed the current
readings and the absolute deltas from the stored history, so that for
two consecutive identical samples the three delta features are zero and
the decision equals the model at zero deltas. The code instead passes
the absolute deltas in the hr_prev/spo2_prev parameter slots of
assess_sensor_quality, which subtracts them from the current readings
again: for two identical samples (hr 70, SpO2 98, unit acceleration) the
HR/SpO2 delta features become 70 and 98 rather than 0, and the firmware
emits quality 0 whereas the model at zero deltas yields 1. -/
theorem C2_quality_double_delta :
    (tick rQual 500 (tick rQual 0 sQualW).1).2 =
      some (.qualityPl 70 98 0 0 1 0 50 1 500) ∧
    predict_quality ![70, 98, 1, 0, 0, 0] = 1 := by
  refine ⟨?_, predict_zero_deltas_one⟩
  have hpct : ((1 : ℕ) : ℚ) / ((2 : ℕ) : ℚ) * 100 = 50 := by norm_num
  simp +decide [tick, sendData, readSensorData, readAccel, readPox, readRaw, readFsr,
    assessDataQuality, sQualW, rQual, initialState, fSqrt_one, assess_identical_zero, hpct]
  norm_num
